import Mathlib

/-!
Verification of the aiplanet conversation client and its specified backend core.

The client logic is embedded from `frontend/app/routes/home.tsx`: the chat
state, the per-PDF conversation cache (`pdfChatHistory`), PDF selection
(`handlePdfSelect`), query submission (`handleSubmit`), the streaming read
loop, stop-generation handling (`handleStopGeneration`), and the startup
connection check (`checkConnection`).

The backend conversation engine (IdentityProvider, ThreadStore,
ContextAssembler, StreamingQueryOrchestrator) has no sources in the
repository; those components are modelled from the specification text and
are marked as such in their doc comments.
-/

/-- A chat message, as in the `Message` interface of `home.tsx`:
`role` is one of the strings "user", "assistant", "ai"; `content` is text. -/
structure Message where
  role : String
  content : String
deriving DecidableEq

/-- A PDF record as seen by the client, from the `PDF` interface of `home.tsx`.
The id is numeric (`id: number`). -/
structure PDF where
  id : Nat
  filename : String
  file_size : Nat
  upload_date : String
  content_type : String
deriving DecidableEq

/-- One entry of the per-PDF conversation cache `pdfChatHistory`:
`{messages: Message[], threadId: string | null}`. -/
structure ChatEntry where
  messages : List Message
  threadId : Option String
deriving DecidableEq

/-- The client component state of `home.tsx` relevant to the claims:
`messages`, `threadId`, `selectedPdf`, `inputValue`, `isLoading`, `error`,
`pageLoading`. -/
structure ClientState where
  messages : List Message
  threadId : Option String
  selectedPdf : Option PDF
  inputValue : String
  isLoading : Bool
  error : Option String
  pageLoading : Bool
deriving DecidableEq

/-- The greeting installed in the initial state and when no PDF is selected
(`home.tsx` lines 27-32 and 108-115). -/
def initialGreeting : Message :=
  ⟨"assistant", "Hello! I\x27m your AI assistant. Upload a PDF and ask me questions about it."⟩

/-- The greeting installed when a PDF with no saved conversation is selected
(`home.tsx` lines 98-105). -/
def pdfGreeting (pdf : PDF) : Message :=
  ⟨"assistant", "PDF selected: " ++ pdf.filename ++ ". How can I help you with this document?"⟩

/-- The per-PDF conversation cache `pdfChatHistory.current`, a process-wide
`Record<number, ChatEntry>` keyed by numeric PDF id. Modelled as an
association list where the head entry shadows older ones, matching
assignment semantics of the JS record. -/
abbrev PdfChatHistory := List (Nat × ChatEntry)

/-- The save step at the top of `handlePdfSelect` (`home.tsx` lines 79-85):
the outgoing conversation is written into `pdfChatHistory` only when a PDF is
currently selected and the conversation has more than one message. -/
def saveCurrentChat (st : ClientState) (cache : PdfChatHistory) : PdfChatHistory :=
  match st.selectedPdf with
  | some cur =>
      if 1 < st.messages.length then (cur.id, ⟨st.messages, st.threadId⟩) :: cache else cache
  | none => cache

/-- `handlePdfSelect` from `home.tsx` lines 78-117: save the current
conversation (when eligible), then either restore the cached conversation for
the newly selected PDF, install a fresh single-greeting conversation with a
null thread id, or reset to the default greeting when deselecting. -/
def handlePdfSelect (st : ClientState) (cache : PdfChatHistory) (pdf : Option PDF) :
    ClientState × PdfChatHistory :=
  let cache₂ := saveCurrentChat st cache
  match pdf with
  | some p =>
      match cache₂.lookup p.id with
      | some prev =>
          ({ st with selectedPdf := some p, messages := prev.messages,
                     threadId := prev.threadId }, cache₂)
      | none =>
          ({ st with selectedPdf := some p, messages := [pdfGreeting p],
                     threadId := none }, cache₂)
  | none =>
      ({ st with selectedPdf := none, messages := [initialGreeting], threadId := none }, cache₂)

/-- The cancellation marker appended by `handleStopGeneration`
(`home.tsx` line 136). -/
def stopMarker : String := "\n\n_Generation stopped by user_"

/-- `handleStopGeneration` from `home.tsx` lines 120-142: abort the in-flight
request, clear the loading flag, and append the cancellation marker to the
last message when that message is an assistant message. -/
def handleStopGeneration (st : ClientState) : ClientState :=
  let msgs :=
    match st.messages.getLast? with
    | some m =>
        if m.role = "assistant" then
          st.messages.dropLast ++ [⟨m.role, m.content ++ stopMarker⟩]
        else st.messages
    | none => st.messages
  { st with isLoading := false, messages := msgs }

/-- The `inputValue.trim()` call of the submit guard (`home.tsx` line 147):
strips leading and trailing whitespace. Embedded over the character list so
that it evaluates by kernel reduction. -/
def jsTrim (s : String) : String :=
  ⟨((s.data.dropWhile Char.isWhitespace).reverse.dropWhile Char.isWhitespace).reverse⟩

/-- The outgoing query request built by `handleSubmit` (`home.tsx`
lines 166-188): the `X-Thread-Id` header (present exactly when a thread id is
stored) and the JSON body `{messages, pdf_id}`. The body has no thread
field. -/
structure QueryRequest where
  headerThreadId : Option String
  bodyMessages : List Message
  bodyPdfId : Nat
deriving DecidableEq

/-- The result of the synchronous prefix of `handleSubmit`: the updated client
state and the request issued, if any. -/
structure SubmitStep where
  state : ClientState
  request : Option QueryRequest
deriving DecidableEq

/-- The synchronous prefix of `handleSubmit` (`home.tsx` lines 145-188):
return unchanged on empty input or while loading; surface the
"Please select a PDF first" error and issue no request when no PDF is
selected; otherwise append the user message, clear input and error, set
loading, and issue the request carrying the stored thread id in the header
and the full current message list plus the PDF id in the body. -/
def handleSubmitStart (st : ClientState) : SubmitStep :=
  if jsTrim st.inputValue = "" ∨ st.isLoading = true then ⟨st, none⟩
  else
    match st.selectedPdf with
    | none => ⟨{ st with error := some "Please select a PDF first" }, none⟩
    | some pdf =>
        let userMessage : Message := ⟨"user", st.inputValue⟩
        ⟨{ st with messages := st.messages ++ [userMessage], inputValue := "",
                   isLoading := true, error := none },
         some ⟨st.threadId, st.messages ++ [userMessage], pdf.id⟩⟩

/-- One iteration of the streaming read loop (`home.tsx` lines 225-247):
the decoded chunk is appended to the content of the last message when that
message is an assistant message; otherwise the list is unchanged. -/
def appendChunk (msgs : List Message) (chunk : String) : List Message :=
  match msgs.getLast? with
  | some m =>
      if m.role = "assistant" then
        msgs.dropLast ++ [⟨m.role, m.content ++ chunk⟩]
      else msgs
  | none => msgs

/-- The streaming read loop (`home.tsx` lines 216-249): each delivered chunk
is processed by `appendChunk`, and the loop ends when the reader reports
`done`. -/
def consumeStream (msgs : List Message) : List String → List Message
  | [] => msgs
  | c :: cs => consumeStream (appendChunk msgs c) cs

/-- Concatenation of delivered chunks, in delivery order. -/
def concatChunks : List String → String
  | [] => ""
  | c :: cs => c ++ concatChunks cs

/-- The observable outcome of one streaming session started on state `st`:
the reader delivers `chunks.take k` and then the session is cancelled
(`cancelAfter = some k`, running `handleStopGeneration` at the chunk
boundary), or all of `chunks` are delivered and the reader reports `done`
(`cancelAfter = none`), after which the `finally` block clears the loading
flag. No other termination information reaches the client state. -/
def streamWithCancel (st : ClientState) (chunks : List String) (cancelAfter : Option Nat) :
    ClientState :=
  match cancelAfter with
  | none => { st with messages := consumeStream st.messages chunks, isLoading := false }
  | some k => handleStopGeneration { st with messages := consumeStream st.messages (chunks.take k) }

/-- The whole success path of `handleSubmit` (`home.tsx` lines 145-249 and
the `finally` block): the synchronous prefix, then — when a request was
issued — capture of the `X-Thread-Id` response header into the stored thread
id (lines 195-197), the empty assistant message (lines 209-210), the
streaming read loop, and the loading reset. -/
def afterSuccessfulQuery (st : ClientState) (respTid : Option String) (chunks : List String) :
    ClientState :=
  let step := handleSubmitStart st
  match step.request with
  | none => step.state
  | some _ =>
      let st₂ :=
        match respTid with
        | some t => { step.state with threadId := some t }
        | none => step.state
      let st₃ := { st₂ with messages := st₂.messages ++ [Message.mk "assistant" ""] }
      { st₃ with messages := consumeStream st₃.messages chunks, isLoading := false }

/-- Outcome of one iteration of the `checkConnection` retry loop
(`home.tsx` lines 47-70): the root probe `GET /` throws, returns non-200, or
returns 200 followed by a health probe that returns 200, returns non-200, or
throws. -/
inductive ProbeOutcome where
  | rootThrow
  | rootNon200
  | okHealthOk
  | okHealthNon200
  | okHealthThrow
deriving DecidableEq

/-- Whether the iteration makes the `while (!response)` loop exit: the loop
variable `response` becomes true exactly when the root probe returned 200,
regardless of the health probe outcome. -/
def stepExits : ProbeOutcome → Bool
  | ProbeOutcome.rootThrow => false
  | ProbeOutcome.rootNon200 => false
  | ProbeOutcome.okHealthOk => true
  | ProbeOutcome.okHealthNon200 => true
  | ProbeOutcome.okHealthThrow => true

/-- The `pageLoading` flag after an exiting iteration: it is cleared only when
the health probe also returned 200; otherwise the loop exits with the page
still loading. -/
def exitPageLoading : ProbeOutcome → Bool
  | ProbeOutcome.okHealthOk => false
  | _ => true

/-- Fuel-indexed execution of the `checkConnection` loop from iteration `n`:
`some b` when the loop exits within `fuel` iterations leaving `pageLoading = b`,
`none` when `fuel` iterations were not enough. The loop itself has no retry
budget; the fuel is only an observation bound. -/
def checkConnectionAux (probe : Nat → ProbeOutcome) : Nat → Nat → Option Bool
  | _, 0 => none
  | n, fuel + 1 =>
      if stepExits (probe n) then some (exitPageLoading (probe n))
      else checkConnectionAux probe (n + 1) fuel

/-- Execution of `checkConnection` from its first iteration. -/
def checkConnectionRun (probe : Nat → ProbeOutcome) (fuel : Nat) : Option Bool :=
  checkConnectionAux probe 0 fuel

/-- The `checkConnection` loop terminates on the probe-outcome sequence
`probe`. -/
def checkConnectionTerminates (probe : Nat → ProbeOutcome) : Prop :=
  ∃ fuel, (checkConnectionRun probe fuel).isSome = true

/-- Modelled from the spec: the backend IdentityToken of section 3 — the
backend sources are not in the repository. A signed credential carrying
`{user_id, issued_at, expiry}`. -/
structure IdentityToken where
  user_id : String
  issued_at : Nat
  expiry : Nat
deriving DecidableEq

/-- Modelled from the spec: `IdentityProvider.authenticate` of section 4.1 —
the backend sources are not in the repository. Signature verification is
abstracted as the predicate `verifySig`. With no credential, or on an invalid
signature or an expired token, a fresh identity `freshUser` is issued
(graceful recovery); with a valid unexpired credential the bound user id and
the same token are returned. -/
def authenticate (verifySig : IdentityToken → Bool) (now : Nat)
    (freshUser : String × IdentityToken) (cred : Option IdentityToken) :
    String × IdentityToken :=
  match cred with
  | none => freshUser
  | some tok =>
      if verifySig tok = false then freshUser
      else if tok.expiry ≤ now then freshUser
      else (tok.user_id, tok)

/-- Modelled from the spec: the backend PdfRecord of section 3 (read-only for
the core) — the backend sources are not in the repository. -/
structure PdfRecord where
  id : Nat
  owner_id : String
  extracted_text : String
deriving DecidableEq

/-- Modelled from the spec: the backend Thread record of section 3 — the
backend sources are not in the repository. -/
structure SThread where
  id : String
  owner_id : String
  pdf_id : Option Nat
  messages : List Message
deriving DecidableEq

/-- Modelled from the spec: `ThreadStore.get` of section 4.2 — the backend
sources are not in the repository. -/
def threadGet (store : List SThread) (tid : String) : Option SThread :=
  store.find? (fun t => t.id = tid)

/-- Modelled from the spec: `ThreadStore.checkOwnership` of section 4.2 — the
backend sources are not in the repository. -/
def checkOwnership (store : List SThread) (tid : String) (owner : String) : Bool :=
  match threadGet store tid with
  | some t => t.owner_id = owner
  | none => false

/-- Modelled from the spec: the fixed system preamble of section 4.3 — the
backend sources are not in the repository; the preamble content is
unspecified, only that it is fixed. -/
def systemPreamble : String :=
  "You are an assistant answering questions about the provided document."

/-- Modelled from the spec: the degraded context used when the PDF is missing
or its text is empty (section 4.3). -/
def noDocumentContext : String := "no document context"

/-- Rendering of one message inside the assembled prompt. -/
def renderMessage (m : Message) : String := m.role ++ ": " ++ m.content ++ "\n"

/-- Whether the prompt assembled from the given history fits the input
budget. -/
def fitsBudget (budget : Nat) (pdfText : String) (msgs : List Message) (newMsg : Message) :
    Bool :=
  systemPreamble.length + pdfText.length +
      (msgs.map (fun m => (renderMessage m).length)).sum +
      (renderMessage newMsg).length ≤ budget

/-- Modelled from the spec: the sliding-window truncation of section 4.3 — the
backend sources are not in the repository. Oldest messages are dropped first
until the prompt fits the budget, always keeping the newest `keepNewest`
turns. -/
def windowedHistory (budget keepNewest : Nat) (pdfText : String) (newMsg : Message) :
    List Message → List Message
  | [] => []
  | m :: rest =>
      if fitsBudget budget pdfText (m :: rest) newMsg ∨ (m :: rest).length ≤ keepNewest then
        m :: rest
      else windowedHistory budget keepNewest pdfText newMsg rest

/-- Modelled from the spec: `ContextAssembler.build` of section 4.3 — the
backend sources are not in the repository. Concatenates, in order, the fixed
system preamble, the PDF text (degrading to "no document context"), the
prior thread messages after sliding-window truncation, and the new user
message. -/
def build (budget keepNewest : Nat) (thread : SThread) (pdf : Option PdfRecord)
    (newMsg : Message) : String :=
  let pdfText :=
    match pdf with
    | some p => if p.extracted_text = "" then noDocumentContext else p.extracted_text
    | none => noDocumentContext
  let hist := windowedHistory budget keepNewest pdfText newMsg thread.messages
  systemPreamble ++ "\n" ++ pdfText ++ "\n" ++
    concatChunks (hist.map renderMessage) ++ renderMessage newMsg

/-- Modelled from the spec: the error taxonomy of section 7 — the backend
sources are not in the repository. -/
inductive OrchError where
  | Forbidden
  | NotFound
  | Conflict
  | NoContext
deriving DecidableEq

/-- The observable outcome of one `StreamingQueryOrchestrator.handle`
invocation: the thread store after the call, the chunks streamed to the
caller, whether the model provider was invoked, the terminal error if any,
the resolved thread id, and the "newly created" flag. -/
structure HandleResult where
  store : List SThread
  events : List String
  modelInvoked : Bool
  error : Option OrchError
  threadId : Option String
  newlyCreated : Bool
deriving DecidableEq

/-- Modelled from the spec: fresh thread-id allocation of section 4.2 — the
backend sources are not in the repository. -/
def freshThreadId (store : List SThread) : String := "thread-" ++ toString store.length

/-- Modelled from the spec: the Assembling, Streaming and Committing steps of
section 4.4 on a resolved thread — the backend sources are not in the
repository. Appends the user message, builds the prompt, invokes the model,
and commits the assistant turn. -/
def runThread (budget keepNewest : Nat) (store : List SThread) (t : SThread) (created : Bool)
    (pdf : Option PdfRecord) (userText : String) (generate : String → List String) :
    HandleResult :=
  let userMsg : Message := ⟨"user", userText⟩
  let prompt := build budget keepNewest t pdf userMsg
  let chunks := generate prompt
  let assistantMsg : Message := ⟨"assistant", concatChunks chunks⟩
  let t₂ := { t with messages := t.messages ++ [userMsg, assistantMsg] }
  ⟨t₂ :: store.filter (fun x => x.id ≠ t.id), chunks, true, none, some t.id, created⟩

/-- Modelled from the spec: `StreamingQueryOrchestrator.handle` of
section 4.4 after authentication — the backend sources are not in the
repository. With no thread id a fresh thread is created; with a thread id the
store is consulted and ownership is checked before anything else reachable
through the thread id: a missing thread yields NotFound, an ownership
mismatch yields Forbidden with nothing streamed and the model not invoked,
and a PDF binding mismatch yields Conflict. -/
def orchestratorHandle (budget keepNewest : Nat) (store : List SThread) (ownerId : String)
    (threadId : Option String) (pdf : Option PdfRecord) (userText : String)
    (generate : String → List String) : HandleResult :=
  match threadId with
  | none =>
      let t : SThread := ⟨freshThreadId store, ownerId, pdf.map (fun p => p.id), []⟩
      runThread budget keepNewest store t true pdf userText generate
  | some tid =>
      match threadGet store tid with
      | none => ⟨store, [], false, some OrchError.NotFound, none, false⟩
      | some t =>
          if t.owner_id = ownerId then
            match pdf, t.pdf_id with
            | some p, some q =>
                if p.id = q then runThread budget keepNewest store t false pdf userText generate
                else ⟨store, [], false, some OrchError.Conflict, none, false⟩
            | _, _ => runThread budget keepNewest store t false pdf userText generate
          else ⟨store, [], false, some OrchError.Forbidden, none, false⟩

/-- Example PDF used in concrete witnesses. -/
def exPdf : PDF := ⟨1, "report.pdf", 1000, "2024-01-01", "application/pdf"⟩

/-- Example client state mid-stream: greeting, one user turn, and the empty
assistant message installed before the read loop. -/
def streamStart : ClientState :=
  ⟨[initialGreeting, ⟨"user", "What color is the sky?"⟩, ⟨"assistant", ""⟩],
   some "t1", some exPdf, "", true, none, false⟩

/-- Final client state of a run whose reader delivered `chunks` and then
reported `done`. -/
def completedClientRun (chunks : List String) : ClientState :=
  streamWithCancel streamStart chunks none

/-- Final client state of a run that was cut off after `k` of the intended
`chunks`, the connection then closing cleanly so the reader reports `done`. -/
def truncatedClientRun (chunks : List String) (k : Nat) : ClientState :=
  streamWithCancel streamStart (chunks.take k) none

/-- Example probe sequence for the connection-check witness: two failures,
then both probes succeed. -/
def exProbe : Nat → ProbeOutcome :=
  fun k => if k < 2 then ProbeOutcome.rootThrow else ProbeOutcome.okHealthOk

/-- Appending a chunk to a message list ending in an assistant message
appends the chunk to that message. -/
theorem appendChunk_assistant (pre : List Message) (c chunk : String) :
    appendChunk (pre ++ [⟨"assistant", c⟩]) chunk = pre ++ [⟨"assistant", c ++ chunk⟩] := by
  simp [appendChunk]

/-- The read loop on a list ending in an assistant message appends the
concatenation of the delivered chunks to that message. -/
theorem consumeStream_assistant (cs : List String) (pre : List Message) (c : String) :
    consumeStream (pre ++ [⟨"assistant", c⟩]) cs =
      pre ++ [⟨"assistant", c ++ concatChunks cs⟩] := by
  induction cs generalizing c with
  | nil => simp [consumeStream, concatChunks]
  | cons ch cs ih =>
      rw [consumeStream, appendChunk_assistant, ih, concatChunks, String.append_assoc]

/-- Stopping generation on a state whose last message is an assistant message
appends the cancellation marker to it and clears the loading flag. -/
theorem handleStopGeneration_assistant (st : ClientState) (pre : List Message) (c : String)
    (h : st.messages = pre ++ [⟨"assistant", c⟩]) :
    handleStopGeneration st =
      { st with messages := pre ++ [⟨"assistant", c ++ stopMarker⟩], isLoading := false } := by
  simp [handleStopGeneration, h]

/-- C5: submitting a query (non-empty input, not already loading) while no
document is selected surfaces the user-correctable "Please select a PDF
first" error, issues no request, and leaves the conversation state (messages
and thread id) unchanged. -/
theorem C5_no_pdf_rejection (st : ClientState)
    (hpdf : st.selectedPdf = none)
    (hin : jsTrim st.inputValue ≠ "")
    (hload : st.isLoading = false) :
    (handleSubmitStart st).state = { st with error := some "Please select a PDF first" } ∧
    (handleSubmitStart st).request = none := by
  simp [handleSubmitStart, hpdf, hin, hload]

/-- C5 witness: concrete no-document submission. -/
theorem C5_witness :
    (handleSubmitStart
        ⟨[initialGreeting], none, none, "What is this about?", false, none, false⟩).state =
      { (⟨[initialGreeting], none, none, "What is this about?", false, none, false⟩ :
          ClientState) with error := some "Please select a PDF first" } ∧
    (handleSubmitStart
        ⟨[initialGreeting], none, none, "What is this about?", false, none, false⟩).request =
      none :=
  C5_no_pdf_rejection _ rfl (by decide) rfl

/-- C10: every issued query request carries in its body the entire current
client-side message list (all prior turns plus the new user message built
from the input) together with the selected PDF id, while the thread id
travels only in the X-Thread-Id header. -/
theorem C10_full_history_request (st : ClientState) (pdf : PDF)
    (hpdf : st.selectedPdf = some pdf)
    (hin : jsTrim st.inputValue ≠ "")
    (hload : st.isLoading = false) :
    (handleSubmitStart st).request =
      some ⟨st.threadId, st.messages ++ [⟨"user", st.inputValue⟩], pdf.id⟩ := by
  simp [handleSubmitStart, hpdf, hin, hload]

/-- C10 witness: concrete submission with one prior exchange. -/
theorem C10_witness :
    (handleSubmitStart
        ⟨[initialGreeting, ⟨"user", "hi"⟩, ⟨"assistant", "hello"⟩], some "t1", some exPdf,
         "next question", false, none, false⟩).request =
      some ⟨some "t1",
            [initialGreeting, ⟨"user", "hi"⟩, ⟨"assistant", "hello"⟩] ++
              [⟨"user", "next question"⟩],
            exPdf.id⟩ :=
  C10_full_history_request _ exPdf rfl (by decide) rfl

/-- C7: authenticate is idempotent on the user identity: for a credential
whose signature verifies and whose expiry has not passed, the returned
identity is the one bound inside the credential, and two presentations of the
same credential (even at different valid times, with different fresh-identity
candidates) yield the same user id. -/
theorem C7_identity_idempotence (verifySig : IdentityToken → Bool)
    (now₁ now₂ : Nat) (fresh₁ fresh₂ : String × IdentityToken) (tok : IdentityToken)
    (hsig : verifySig tok = true)
    (h₁ : now₁ < tok.expiry)
    (h₂ : now₂ < tok.expiry) :
    (authenticate verifySig now₁ fresh₁ (some tok)).1 = tok.user_id ∧
    (authenticate verifySig now₁ fresh₁ (some tok)).1 =
      (authenticate verifySig now₂ fresh₂ (some tok)).1 := by
  simp [authenticate, hsig, Nat.not_le.mpr h₁, Nat.not_le.mpr h₂]

/-- C7 witness: a concrete valid token presented twice. -/
theorem C7_witness :
    (authenticate (fun _ => true) 5 ("u-new", ⟨"u-new", 5, 50⟩)
        (some ⟨"u-1", 0, 10⟩)).1 = "u-1" ∧
    (authenticate (fun _ => true) 5 ("u-new", ⟨"u-new", 5, 50⟩)
        (some ⟨"u-1", 0, 10⟩)).1 =
      (authenticate (fun _ => true) 7 ("u-other", ⟨"u-other", 7, 70⟩)
        (some ⟨"u-1", 0, 10⟩)).1 :=
  C7_identity_idempotence _ 5 7 _ _ ⟨"u-1", 0, 10⟩ rfl (by decide) (by decide)

/-- C8: ContextAssembler.build is deterministic — for identical threads, pdf
records and new user messages (and identical budget policy), two calls
produce identical prompts; the modelled build is a pure function of its
arguments, with no dependence on any other state. -/
theorem C8_build_deterministic (budget keepNewest : Nat) (t₁ t₂ : SThread)
    (p₁ p₂ : Option PdfRecord) (m₁ m₂ : Message)
    (ht : t₁ = t₂) (hp : p₁ = p₂) (hm : m₁ = m₂) :
    build budget keepNewest t₁ p₁ m₁ = build budget keepNewest t₂ p₂ m₂ := by
  rw [ht, hp, hm]

/-- C8 witness: concrete double invocation of build. -/
theorem C8_witness :
    build 200 2 ⟨"t1", "u-1", some 1, [⟨"user", "hi"⟩, ⟨"assistant", "hello"⟩]⟩
        (some ⟨1, "u-1", "The sky is blue"⟩) ⟨"user", "what color is the sky?"⟩ =
      build 200 2 ⟨"t1", "u-1", some 1, [⟨"user", "hi"⟩, ⟨"assistant", "hello"⟩]⟩
        (some ⟨1, "u-1", "The sky is blue"⟩) ⟨"user", "what color is the sky?"⟩ :=
  C8_build_deterministic 200 2 _ _ _ _ _ _ rfl rfl rfl

/-- C6: a request presenting a thread id whose recorded owner differs from the
authenticated caller fails with Forbidden, streams nothing, leaves the thread
store unmutated, and never invokes the model provider — the ownership check
precedes everything reachable via the caller-supplied thread id. -/
theorem C6_forbidden_before_model (budget keepNewest : Nat) (store : List SThread)
    (t : SThread) (tid ownerB : String) (pdf : Option PdfRecord) (txt : String)
    (generate : String → List String)
    (hfind : threadGet store tid = some t)
    (hown : t.owner_id ≠ ownerB) :
    (orchestratorHandle budget keepNewest store ownerB (some tid) pdf txt generate).error =
      some OrchError.Forbidden ∧
    (orchestratorHandle budget keepNewest store ownerB (some tid) pdf txt generate).modelInvoked =
      false ∧
    (orchestratorHandle budget keepNewest store ownerB (some tid) pdf txt generate).events = [] ∧
    (orchestratorHandle budget keepNewest store ownerB (some tid) pdf txt generate).store =
      store := by
  simp [orchestratorHandle, hfind, hown]

/-- C6 witness: user A owns thread t1; user B presents it. -/
theorem C6_witness :
    (orchestratorHandle 200 2 [⟨"t1", "userA", none, []⟩] "userB" (some "t1") none "hi"
        (fun _ => ["resp"])).error = some OrchError.Forbidden ∧
    (orchestratorHandle 200 2 [⟨"t1", "userA", none, []⟩] "userB" (some "t1") none "hi"
        (fun _ => ["resp"])).modelInvoked = false ∧
    (orchestratorHandle 200 2 [⟨"t1", "userA", none, []⟩] "userB" (some "t1") none "hi"
        (fun _ => ["resp"])).events = [] ∧
    (orchestratorHandle 200 2 [⟨"t1", "userA", none, []⟩] "userB" (some "t1") none "hi"
        (fun _ => ["resp"])).store = [⟨"t1", "userA", none, []⟩] :=
  C6_forbidden_before_model 200 2 _ ⟨"t1", "userA", none, []⟩ "t1" "userB" none "hi" _
    (by decide) (by decide)

/-- C2: cancelling mid-stream after `k` chunks have been delivered appends no
further chunks to the conversation — the committed content is built from
exactly the first `k` chunks — retains the accumulated partial assistant text
containing all `k` delivered chunks, and appends the explicit cancellation
marker to it, distinguishing the cancelled turn from a completed one. -/
theorem C2_cancellation_partial_persistence (st : ClientState) (pre : List Message)
    (c : String) (chunks : List String) (k : Nat)
    (h : st.messages = pre ++ [⟨"assistant", c⟩]) :
    (streamWithCancel st chunks (some k)).messages =
      pre ++ [⟨"assistant", c ++ concatChunks (chunks.take k) ++ stopMarker⟩] ∧
    (streamWithCancel st chunks (some k)).isLoading = false := by
  have hc : consumeStream st.messages (chunks.take k) =
      pre ++ [⟨"assistant", c ++ concatChunks (chunks.take k)⟩] := by
    rw [h, consumeStream_assistant]
  constructor
  · rw [streamWithCancel,
      handleStopGeneration_assistant _ pre (c ++ concatChunks (chunks.take k)) hc,
      String.append_assoc]
  · rw [streamWithCancel,
      handleStopGeneration_assistant _ pre (c ++ concatChunks (chunks.take k)) hc]

/-- C2 witness: cancel after 2 of 3 chunks, starting from the empty assistant
message installed at stream start. -/
theorem C2_witness :
    (streamWithCancel streamStart ["The sky", " is blue", " today."] (some 2)).messages =
      [initialGreeting, ⟨"user", "What color is the sky?"⟩] ++
        [⟨"assistant",
          "" ++ concatChunks (["The sky", " is blue", " today."].take 2) ++ stopMarker⟩] ∧
    (streamWithCancel streamStart ["The sky", " is blue", " today."] (some 2)).isLoading =
      false :=
  C2_cancellation_partial_persistence streamStart
    [initialGreeting, ⟨"user", "What color is the sky?"⟩] "" ["The sky", " is blue", " today."]
    2 rfl

/-- C3 counterexample: the code streams raw bytes with no framing, so the
claimed explicit terminal markers do not exist. First conjunct: a run
truncated after 1 of its 2 intended chunks leaves the client in exactly the
state of a successfully completed run of the shorter response — truncation is
mistaken for successful completion. Second conjunct: a chunk that spells a
would-be terminal signal is treated as ordinary content and appended to the
assistant message. -/
theorem C3_counterexample :
    truncatedClientRun ["The sky is blue.", " It is caused by scattering."] 1 =
      completedClientRun ["The sky is blue."] ∧
    (completedClientRun ["done"]).messages =
      [initialGreeting, ⟨"user", "What color is the sky?"⟩, ⟨"assistant", "done"⟩] := by
  constructor
  · rfl
  · rfl

/-- C3 as amended: the streamed response carries no event framing and no
terminal markers — every delivered chunk is appended verbatim to the trailing
assistant message as ordinary content, and the end of the stream is treated
uniformly as completion (the loading flag is cleared), so the final client
state carries no information distinguishing Completed from a truncated
stream delivering the same bytes; only a thrown error or an abort is handled
separately, outside the stream itself. -/
theorem C3_raw_stream (st : ClientState) (pre : List Message) (c : String)
    (chunks : List String)
    (h : st.messages = pre ++ [⟨"assistant", c⟩]) :
    streamWithCancel st chunks none =
      { st with messages := pre ++ [⟨"assistant", c ++ concatChunks chunks⟩],
                isLoading := false } := by
  rw [streamWithCancel, h, consumeStream_assistant]

/-- C3 witness: a concrete completed run appends the concatenated bytes. -/
theorem C3_witness :
    streamWithCancel streamStart ["Blue", " sky"] none =
      { streamStart with
          messages := [initialGreeting, ⟨"user", "What color is the sky?"⟩] ++
            [⟨"assistant", "" ++ concatChunks ["Blue", " sky"]⟩],
          isLoading := false } :=
  C3_raw_stream streamStart [initialGreeting, ⟨"user", "What color is the sky?"⟩] ""
    ["Blue", " sky"] rfl

/-- C1: the request header carries the stored thread id whenever one exists;
after a successful response the stored thread id becomes the X-Thread-Id
response header value whenever the server returns one; and the next query
submitted against the same conversation presents exactly that stored id in
its X-Thread-Id header. -/
theorem C1_thread_id_roundtrip (st : ClientState) (pdf : PDF) (t : String)
    (chunks : List String) (nextInput : String)
    (hpdf : st.selectedPdf = some pdf)
    (hin : jsTrim st.inputValue ≠ "")
    (hload : st.isLoading = false)
    (hnext : jsTrim nextInput ≠ "") :
    (handleSubmitStart st).request.map QueryRequest.headerThreadId = some st.threadId ∧
    (afterSuccessfulQuery st (some t) chunks).threadId = some t ∧
    (handleSubmitStart
        { afterSuccessfulQuery st (some t) chunks with
            inputValue := nextInput }).request.map QueryRequest.headerThreadId =
      some (some t) := by
  simp [handleSubmitStart, afterSuccessfulQuery, hpdf, hin, hload, hnext]

/-- C1 witness: a first query with no stored thread id, a response carrying
thread id "t42", then a second query presenting "t42". -/
theorem C1_witness :
    (handleSubmitStart
        ⟨[initialGreeting], none, some exPdf, "first question", false, none,
         false⟩).request.map QueryRequest.headerThreadId = some none ∧
    (afterSuccessfulQuery
        ⟨[initialGreeting], none, some exPdf, "first question", false, none, false⟩
        (some "t42") ["answer"]).threadId = some "t42" ∧
    (handleSubmitStart
        { afterSuccessfulQuery
            ⟨[initialGreeting], none, some exPdf, "first question", false, none, false⟩
            (some "t42") ["answer"] with
            inputValue := "second question" }).request.map QueryRequest.headerThreadId =
      some (some "t42") :=
  C1_thread_id_roundtrip _ exPdf "t42" ["answer"] "second question" rfl (by decide) rfl
    (by decide)

/-- C9: the client keeps a per-PDF conversation cache keyed by numeric PDF id.
Selecting a PDF whose entry exists in the cache (after the save step) restores
exactly the saved messages and thread id; selecting one with no entry installs
the single-greeting conversation with a null thread id; and the outgoing
conversation is written to the cache only when it has more than one message,
so a conversation holding only the greeting is not saved at all and its
thread-id association is lost on switching. -/
theorem C9_cache_behavior :
    (∀ st cache (p : PDF) prev, (saveCurrentChat st cache).lookup p.id = some prev →
        (handlePdfSelect st cache (some p)).1.messages = prev.messages ∧
        (handlePdfSelect st cache (some p)).1.threadId = prev.threadId) ∧
    (∀ st cache (p : PDF), (saveCurrentChat st cache).lookup p.id = none →
        (handlePdfSelect st cache (some p)).1.messages = [pdfGreeting p] ∧
        (handlePdfSelect st cache (some p)).1.threadId = none) ∧
    (∀ st cache, st.messages.length ≤ 1 → saveCurrentChat st cache = cache) := by
  refine ⟨?_, ?_, ?_⟩
  · intro st cache p prev h
    simp [handlePdfSelect, h]
  · intro st cache p h
    simp [handlePdfSelect, h]
  · intro st cache h
    cases hsel : st.selectedPdf with
    | none => simp [saveCurrentChat, hsel]
    | some cur => simp [saveCurrentChat, hsel, Nat.not_lt.mpr h]

/-- C9 witness: restoring a cached conversation, installing a fresh greeting,
and skipping the save of a greeting-only conversation that still holds a
thread id. -/
theorem C9_witness :
    ((handlePdfSelect ⟨[initialGreeting], none, none, "", false, none, false⟩
        [(2, ⟨[initialGreeting, ⟨"user", "q"⟩, ⟨"assistant", "a"⟩], some "t9"⟩)]
        (some ⟨2, "other.pdf", 5, "2024-01-02", "application/pdf"⟩)).1.messages =
        [initialGreeting, ⟨"user", "q"⟩, ⟨"assistant", "a"⟩] ∧
      (handlePdfSelect ⟨[initialGreeting], none, none, "", false, none, false⟩
        [(2, ⟨[initialGreeting, ⟨"user", "q"⟩, ⟨"assistant", "a"⟩], some "t9"⟩)]
        (some ⟨2, "other.pdf", 5, "2024-01-02", "application/pdf"⟩)).1.threadId =
        some "t9") ∧
    ((handlePdfSelect ⟨[initialGreeting], none, none, "", false, none, false⟩ []
        (some ⟨2, "other.pdf", 5, "2024-01-02", "application/pdf"⟩)).1.messages =
        [pdfGreeting ⟨2, "other.pdf", 5, "2024-01-02", "application/pdf"⟩] ∧
      (handlePdfSelect ⟨[initialGreeting], none, none, "", false, none, false⟩ []
        (some ⟨2, "other.pdf", 5, "2024-01-02", "application/pdf"⟩)).1.threadId = none) ∧
    saveCurrentChat ⟨[pdfGreeting exPdf], some "t7", some exPdf, "", false, none, false⟩
        [] = [] :=
  ⟨C9_cache_behavior.1 _ _ _ ⟨[initialGreeting, ⟨"user", "q"⟩, ⟨"assistant", "a"⟩], some "t9"⟩
      (by decide),
   C9_cache_behavior.2.1 _ _ _ (by decide),
   C9_cache_behavior.2.2 _ _ (by decide)⟩

/-- On a probe sequence whose root request always throws, the retry loop never
exits, whatever observation bound is allowed. -/
theorem checkConnectionAux_rootThrow :
    ∀ fuel n, checkConnectionAux (fun _ => ProbeOutcome.rootThrow) n fuel = none := by
  intro fuel
  induction fuel with
  | zero => intro n; rfl
  | succ f ih =>
      intro n
      rw [checkConnectionAux]
      simp only [stepExits, Bool.false_eq_true, if_false]
      exact ih (n + 1)

/-- C4 counterexample: the startup health-check does not terminate for every
sequence of probe outcomes — on the sequence where the root probe always
fails it loops without bound, with no retry budget and no surfaced failure. -/
theorem C4_counterexample :
    ¬ checkConnectionTerminates (fun _ => ProbeOutcome.rootThrow) := by
  rintro ⟨fuel, hf⟩
  rw [checkConnectionRun, checkConnectionAux_rootThrow fuel 0] at hf
  simp at hf

/-- The retry loop, started at iteration `m`, exits at the first exiting
iteration thereafter. -/
theorem checkConnectionAux_exit (probe : Nat → ProbeOutcome) :
    ∀ n m fuel, (∀ k, k < n → stepExits (probe (m + k)) = false) →
      stepExits (probe (m + n)) = true → n < fuel →
      checkConnectionAux probe m fuel = some (exitPageLoading (probe (m + n))) := by
  intro n
  induction n with
  | zero =>
      intro m fuel _ hex hfuel
      match fuel, hfuel with
      | f + 1, _ =>
          rw [checkConnectionAux]
          simp only [Nat.add_zero] at hex
          rw [if_pos hex]
          simp
  | succ n ih =>
      intro m fuel hbefore hex hfuel
      match fuel, hfuel with
      | f + 1, hfuel =>
          rw [checkConnectionAux]
          have h0 : stepExits (probe m) = false := by simpa using hbefore 0 (Nat.succ_pos n)
          rw [if_neg (by simp [h0])]
          have hb : ∀ k, k < n → stepExits (probe (m + 1 + k)) = false := by
            intro k hk
            have hk1 := hbefore (k + 1) (Nat.succ_lt_succ hk)
            have heq : m + (k + 1) = m + 1 + k := by omega
            rwa [heq] at hk1
          have hex2 : stepExits (probe (m + 1 + n)) = true := by
            have heq : m + (n + 1) = m + 1 + n := by omega
            rwa [heq] at hex
          have hres := ih (m + 1) f hb hex2 (Nat.lt_of_succ_lt_succ hfuel)
          have heq : m + 1 + n = m + (n + 1) := by omega
          rw [heq] at hres
          exact hres

/-- C4 as amended: `checkConnection` has no retry budget, no backoff growth,
and no surfaced failure — it retries at a fixed 2-second interval without
bound (see the counterexample) and terminates exactly at the first iteration
whose root probe returns 200; the spinner is cleared only when that iteration
also gets a 200 from the health probe, otherwise the loop exits with the page
stuck loading. -/
theorem C4_first_success_termination (probe : Nat → ProbeOutcome) (n fuel : Nat)
    (hbefore : ∀ k, k < n → stepExits (probe k) = false)
    (hexit : stepExits (probe n) = true)
    (hfuel : n < fuel) :
    checkConnectionRun probe fuel = some (exitPageLoading (probe n)) := by
  have h := checkConnectionAux_exit probe n 0 fuel (by simpa using hbefore)
    (by simpa using hexit) hfuel
  simpa using h

/-- C4 witness: two failing iterations, then both probes succeed and the loop
exits with the spinner cleared. -/
theorem C4_witness : checkConnectionRun exProbe 3 = some false := by
  have h := C4_first_success_termination exProbe 2 3 (by decide) (by decide) (by decide)
  simpa [exProbe, exitPageLoading] using h
